import Mathlib

/-!
Shallow embedding of `watch_alebilet.py`, a single-file price monitor:
price-text parser (`parse_price_pln`), retrying HTTP fetcher
(`fetch_html_with_warm`), HTML price extractor (`extract_plate_price`),
JSON state store (`load_state`) and the orchestrating `main` latch state
machine.  Python strings are modelled as Lean `String`/`List Char`,
Python floats as exact rationals (the prices involved are decimal
literals), exceptions as `Except String`, and the outside world (HTTP,
SMTP, filesystem) as explicit oracle inputs to the modelled functions.
-/

namespace AlebiletWatch

/-! ## Python string primitives -/

/-- The non-breaking space character `"\xa0"` used by the source. -/
def nbsp : Char := '\u00A0'

/-- Python `str.lower` restricted to ASCII letters (all strings the
program compares case-insensitively, `"plyta"` and `"category"`, are
ASCII). -/
def lowerChar (c : Char) : Char :=
  if 'A' ≤ c ∧ c ≤ 'Z' then Char.ofNat (c.toNat + 32) else c

/-- Lowercase a whole string, character by character. -/
def lowerStr (s : String) : String := String.mk (s.data.map lowerChar)

/-- Whitespace as recognised by Python `str.strip()` / `str.split()`
(ASCII whitespace plus the non-breaking space). -/
def pyIsSpaceChar (c : Char) : Bool :=
  c == ' ' || c == '\t' || c == '\n' || c == '\r' || c == '\u000b' ||
    c == '\u000c' || c == nbsp

/-- Python `str.strip()` on a character list. -/
def pyStripChars (cs : List Char) : List Char :=
  ((cs.dropWhile pyIsSpaceChar).reverse.dropWhile pyIsSpaceChar).reverse

/-- Python `str.strip()`. -/
def pyStrip (s : String) : String := String.mk (pyStripChars s.data)

/-- Helper for `splitWsChars`: `acc` holds the current word reversed. -/
def splitWsAux : List Char → List Char → List (List Char)
  | acc, [] => if acc.isEmpty then [] else [acc.reverse]
  | acc, c :: rest =>
      if pyIsSpaceChar c then
        (if acc.isEmpty then [] else [acc.reverse]) ++ splitWsAux [] rest
      else splitWsAux (c :: acc) rest

/-- Python `str.split()` (split on whitespace runs, dropping empties);
this is how `BeautifulSoup` tokenises a `class` attribute. -/
def splitWsChars (cs : List Char) : List (List Char) := splitWsAux [] cs

/-- Does `s` start with `pat`? -/
def startsWithChars : List Char → List Char → Bool
  | [], _ => true
  | _ :: _, [] => false
  | p :: ps, c :: cs => p == c && startsWithChars ps cs

/-- Python substring containment `pat in s`. -/
def hasSubChars (pat : List Char) : List Char → Bool
  | [] => startsWithChars pat []
  | c :: cs => startsWithChars pat (c :: cs) || hasSubChars pat cs

/-- Python `pat in s` on strings. -/
def hasSubStr (s pat : String) : Bool := hasSubChars pat.data s.data

/-- Python `text.replace("zł", "")` on an (already lowercased) character
list: drop every occurrence of the two-character pattern `zł`. -/
def dropZl : List Char → List Char
  | 'z' :: 'ł' :: rest => dropZl rest
  | c :: rest => c :: dropZl rest
  | [] => []

/-! ## Price text parser (`parse_price_pln`, source lines 97-107) -/

/-- Source line 102: `.replace(".", "", 1)` — remove the first dot, if
any. -/
def removeFirstDot : List Char → List Char
  | [] => []
  | c :: rest => if c == '.' then rest else c :: removeFirstDot rest

/-- The cleaning pipeline of `parse_price_pln` (source lines 99-106),
step for step: `"\xa0"`→`" "`, remove spaces, remove one dot, remove
remaining spaces and dots, `","`→`"."`. -/
def cleanChars (cs : List Char) : List Char :=
  let s1 := cs.map (fun c => if c == nbsp then ' ' else c)
  let s2 := s1.filter (fun c => c != ' ')
  let s3 := removeFirstDot s2
  let s4 := s3.filter (fun c => c != ' ')
  let s5 := s4.filter (fun c => c != '.')
  s5.map (fun c => if c == ',' then '.' else c)

/-- Modelled from the spec: "normalize non-breaking spaces to ordinary
spaces; strip all space and dot characters; replace the remaining comma
with a decimal point".  Compared against the source's `cleanChars`. -/
def specCleanChars (cs : List Char) : List Char :=
  ((cs.map (fun c => if c == nbsp then ' ' else c)).filter
      (fun c => c != ' ' && c != '.')).map (fun c => if c == ',' then '.' else c)

/-- Numeric value of a digit string (most significant first). -/
def digitsToNat (cs : List Char) : Nat :=
  cs.foldl (fun a c => a * 10 + (c.toNat - 48)) 0

/-- Split a character list at its first `'.'`, keeping the remainder. -/
def splitDot : List Char → List Char × Option (List Char)
  | [] => ([], none)
  | '.' :: rest => ([], some rest)
  | c :: rest =>
      let r := splitDot rest
      (c :: r.1, r.2)

/-- Python `float()` restricted to plain decimal numerals (optional
sign, digits, at most one point; no exponent, `inf`/`nan` or
underscores, which the cleaned price strings never contain).  Returns
the sign flag, the digits as a natural number, and the number of
fractional digits; `none` models `ValueError`. -/
def pyFloatParts (cs : List Char) : Option (Bool × Nat × Nat) :=
  let signAndRest : Bool × List Char :=
    match cs with
    | '-' :: r => (true, r)
    | '+' :: r => (false, r)
    | r => (false, r)
  let neg := signAndRest.1
  let rest := signAndRest.2
  match splitDot rest with
  | (ip, none) =>
      if ip ≠ [] ∧ ip.all Char.isDigit then some (neg, digitsToNat ip, 0)
      else none
  | (ip, some fp) =>
      if (ip ≠ [] ∨ fp ≠ []) ∧ ip.all Char.isDigit ∧ fp.all Char.isDigit then
        some (neg, digitsToNat ip * 10 ^ fp.length + digitsToNat fp, fp.length)
      else none

/-- The rational denoted by a `pyFloatParts` result. -/
def ratOfParts : Bool × Nat × Nat → ℚ
  | (neg, n, k) => (if neg then -1 else 1) * ((n : ℚ) / 10 ^ k)

/-- Python `float()` on a decimal numeral, exact over `ℚ`. -/
def pyFloat (cs : List Char) : Option ℚ := (pyFloatParts cs).map ratOfParts

/-- `parse_price_pln` (source lines 97-107): clean the localized price
string and parse it as a number; a `ValueError` is modelled as
`Except.error`. -/
def parse_price_pln (s : String) : Except String ℚ :=
  match pyFloatParts (cleanChars s.data) with
  | some parts => .ok (ratOfParts parts)
  | none => .error ("could not convert string to float: " ++ String.mk (cleanChars s.data))

/-! ## Parsed HTML documents and the extractor
(`extract_plate_price`, source lines 110-133)

The extractor operates on the tree produced by `BeautifulSoup`; we model
that tree directly (tag names lowercased by the HTML parser, attributes
as an association list, children in document order).  `NodeList` is a
specialised list of nodes so that all tree recursions are structural. -/

mutual
inductive Node where
  | text (s : String)
  | elem (tag : String) (attrs : List (String × String)) (children : NodeList)
inductive NodeList where
  | nil
  | cons (head : Node) (tail : NodeList)
end

/-- Build a `NodeList` from a `List Node`. -/
def nodesOf : List Node → NodeList
  | [] => .nil
  | n :: ns => .cons n (nodesOf ns)

/-- Attribute lookup, `tag["name"]` / `tag.get("name")`. -/
def getAttr (attrs : List (String × String)) (key : String) : Option String :=
  match attrs with
  | [] => none
  | (k, v) :: rest => if k == key then some v else getAttr rest key

mutual
/-- All element nodes of a subtree satisfying `p`, in document
(pre-)order, the root included. -/
def elemsOfNode (p : Node → Bool) : Node → List Node
  | .text _ => []
  | .elem t a cs =>
      (if p (.elem t a cs) then [Node.elem t a cs] else []) ++ elemsOfNodeList p cs
/-- `elemsOfNode` over a list of sibling subtrees. -/
def elemsOfNodeList (p : Node → Bool) : NodeList → List Node
  | .nil => []
  | .cons n ns => elemsOfNode p n ++ elemsOfNodeList p ns
end

/-- `soup.find_all(...)` / `tag.find(...)` search space: all descendants
of `n` (excluding `n` itself), in document order, that satisfy `p`. -/
def findAllIn (p : Node → Bool) : Node → List Node
  | .text _ => []
  | .elem _ _ cs => elemsOfNodeList p cs

mutual
/-- All text-node strings of a subtree, in document order
(`tag.strings` in `BeautifulSoup`). -/
def textsOfNode : Node → List String
  | .text s => [s]
  | .elem _ _ cs => textsOfNodeList cs
/-- `textsOfNode` over a list of sibling subtrees. -/
def textsOfNodeList : NodeList → List String
  | .nil => []
  | .cons n ns => textsOfNode n ++ textsOfNodeList ns
end

/-- `tag.get_text(sep, strip=True)`: strip every string, drop the empty
ones, join with `sep`. -/
def getTextStrip (sep : String) (n : Node) : String :=
  String.intercalate sep (((textsOfNode n).map pyStrip).filter (fun s => s != ""))

/-- The multi-valued `class` attribute as `BeautifulSoup` presents it:
the attribute value split on whitespace (`tag.get("class", [])`). -/
def classTokens (attrs : List (String × String)) : List String :=
  (splitWsChars ((getAttr attrs "class").getD "").data).map String.mk

/-- Source line 116: `" ".join(tr.get("class", []))`. -/
def joinedClasses (attrs : List (String × String)) : String :=
  String.intercalate " " (classTokens attrs)

/-- Is the node a `tr` element? (`soup.find_all("tr")`). -/
def isTrTag : Node → Bool
  | .elem t _ _ => t == "tr"
  | _ => false

/-- Source lines 115-117: the row has a `data-area` attribute equal to
`"plyta"` after lowercasing, and its space-joined lowercased class list
contains `"category"` as a substring. -/
def plateRowPred : Node → Bool
  | .text _ => false
  | .elem _ attrs _ =>
      match getAttr attrs "data-area" with
      | none => false
      | some v =>
          lowerStr v == "plyta" &&
            hasSubStr (lowerStr (joinedClasses attrs)) "category"

/-- Source line 123: `row.find("td", class_="price")` target — a `td`
whose class token list contains `"price"`. -/
def isPriceTd : Node → Bool
  | .elem t attrs _ => t == "td" && (classTokens attrs).contains "price"
  | _ => false

/-- Source line 126: `price_td.find("b")` target. -/
def isBoldTag : Node → Bool
  | .elem t _ _ => t == "b"
  | _ => false

/-- The candidate rows of source lines 113-119: all `tr` descendants in
document order that pass the `data-area`/`class` test; the source keeps
the first one. -/
def plateRows (doc : Node) : List Node :=
  (findAllIn isTrTag doc).filter plateRowPred

/-- All price-cell descendants of a row (the source keeps the first). -/
def priceTds (row : Node) : List Node := findAllIn isPriceTd row

/-- All bold descendants of a cell (the source keeps the first). -/
def boldsIn (td : Node) : List Node := findAllIn isBoldTag td

/-- The string handed to `parse_price_pln` by `extract_plate_price`
(source lines 110-132), or `none` for every `return None` branch:
no matching row, no price cell, no bold element, or empty stripped bold
text.  Otherwise: take the bold's text joined by spaces, lowercase it,
remove `"zł"`, and strip. -/
def plateNumPart (doc : Node) : Option String :=
  match (plateRows doc).head? with
  | none => none
  | some row =>
      match (priceTds row).head? with
      | none => none
      | some td =>
          match (boldsIn td).head? with
          | none => none
          | some bnode =>
              if getTextStrip "" bnode == "" then none
              else
                some (pyStrip (String.mk (dropZl (lowerStr (getTextStrip " " bnode)).data)))

/-- `extract_plate_price` (source lines 110-133): `Except.ok none` is
the `return None` outcome (NO_MATCH), `Except.ok (some q)` a parsed
price, and `Except.error` a `parse_price_pln` failure propagating out of
the extractor as a hard error. -/
def extract_plate_price (doc : Node) : Except String (Option ℚ) :=
  match plateNumPart doc with
  | none => .ok none
  | some np =>
      match parse_price_pln np with
      | .ok q => .ok (some q)
      | .error e => .error e

/-! ## Page fetcher (`fetch_html_with_warm`, source lines 71-94)

One loop iteration (warm-up request, then target request) is driven by
an oracle `AttemptOutcome`: either some exception was raised during the
requests, or the target request produced a status code and a body.  The
warm-up response itself is ignored by the source except for exceptions,
which `AttemptOutcome.exc` covers. -/

inductive AttemptOutcome where
  | exc (msg : String)
  | resp (status : Nat) (body : String)
deriving DecidableEq

/-- Source lines 82-87 applied to one attempt: the body on a 2xx status
with a non-empty body longer than 1000 characters, otherwise the raised
`RuntimeError` message. -/
def attemptResult : AttemptOutcome → Except String String
  | .exc m => .error m
  | .resp st body =>
      if 200 ≤ st ∧ st < 300 ∧ body ≠ "" ∧ body.length > 1000 then .ok body
      else if st = 403 ∨ st = 429 ∨ 500 ≤ st ∨ body.length < 1000 then
        .error ("Bad HTTP " ++ toString st ++ " or tiny body")
      else .error ("Unexpected HTTP " ++ toString st)

/-- Is an `Except` a success? -/
def exIsOk {ε α : Type} : Except ε α → Bool
  | .ok _ => true
  | .error _ => false

/-- The error message carried by an `Except` (or `""` on success). -/
def exErrMsg {α : Type} : Except String α → String
  | .error e => e
  | .ok _ => ""

/-- The retry loop of source lines 74-94 over the remaining attempt
outcomes.  `attempt` is the current 0-based loop index; the returned
list records the back-off sleeps performed, in milliseconds.  On a
failure with `attempt < maxRetries` the loop sleeps
`(backoff_ms / 1000) * (attempt + 1)` seconds and continues; otherwise
it breaks and raises `"Fetch failed after retries: ..."` with the last
error. -/
def fetchAux (maxRetries backoffMs : Nat) :
    List AttemptOutcome → Nat → Option String → Except String String × List Nat
  | [], _, lastErr =>
      (.error ("Fetch failed after retries: " ++ lastErr.getD "None"), [])
  | o :: rest, attempt, _ =>
      match attemptResult o with
      | .ok body => (.ok body, [])
      | .error e =>
          if attempt < maxRetries then
            let r := fetchAux maxRetries backoffMs rest (attempt + 1) (some e)
            (r.1, backoffMs * (attempt + 1) :: r.2)
          else (.error ("Fetch failed after retries: " ++ e), [])

/-- `fetch_html_with_warm` (source lines 71-94), with the network
modelled by the per-attempt oracle list `outs` (one entry per iteration
of `for attempt in range(max_retries + 1)`, so `outs` has
`maxRetries + 1` entries). -/
def fetch_html_with_warm (outs : List AttemptOutcome)
    (maxRetries backoffMs : Nat) : Except String String × List Nat :=
  fetchAux maxRetries backoffMs outs 0 none

/-! ## State store and orchestrator (`load_state`, `main`,
source lines 46-58 and 163-205) -/

/-- A JSON value as produced by `json.load`. -/
inductive JVal where
  | jnull
  | jbool (b : Bool)
  | jnum (q : ℚ)
  | jstr (s : String)
  | jarr (elems : List JVal)
  | jobj (fields : List (String × JVal))

/-- Python truthiness (`bool(...)`) of a JSON-decoded value. -/
def pyBool : JVal → Bool
  | .jnull => false
  | .jbool b => b
  | .jnum q => q ≠ 0
  | .jstr s => s != ""
  | .jarr elems => !elems.isEmpty
  | .jobj fields => !fields.isEmpty

/-- What the state file looks like to `load_state`: absent
(`os.path.exists` false), unreadable (`open`/read raises), malformed
(`json.load` raises), or a JSON object with the given fields.  A state
file holding valid non-object JSON is outside the model (the source
would crash later, outside `load_state`, on `state.get`). -/
inductive StateFile where
  | missing
  | unreadable
  | malformed
  | valid (fields : List (String × JVal))

/-- `load_state` (source lines 46-53): any missing/unreadable/malformed
file yields `{"last_below": false}`; otherwise the parsed object. -/
def load_state : StateFile → List (String × JVal)
  | .valid fields => fields
  | _ => [("last_below", JVal.jbool false)]

/-- Python `dict.get(key, dflt)`. -/
def dictGet (m : List (String × JVal)) (key : String) (dflt : JVal) : JVal :=
  match m with
  | [] => dflt
  | (k, v) :: rest => if k == key then v else dictGet rest key dflt

/-- Python `dict[key] = v`: replace the binding if present, else append. -/
def setKey (m : List (String × JVal)) (key : String) (v : JVal) :
    List (String × JVal) :=
  match m with
  | [] => [(key, v)]
  | (k, w) :: rest => if k == key then (key, v) :: rest else (k, w) :: setKey rest key v

/-- The oracle inputs of one run of `main`: the state file, the outcome
of `fetch_html_with_warm(URL)` (already parsed into a document tree on
success, since `BeautifulSoup` parsing is total), and the outcome of
`send_email_alert` (consulted only when the source calls it). -/
structure RunEnv where
  stateFile : StateFile
  fetched : Except String Node
  sendResult : Except String Unit

/-- The observable effects of one run of `main`: the return code handed
to `sys.exit`, the dict written by `save_state`, the single `log_row`
appended (price, status, note), the line printed to standard error (if
any), and whether `send_email_alert` was called / completed. -/
structure RunResult where
  exitCode : Nat
  savedState : List (String × JVal)
  logPrice : Option ℚ
  logStatus : String
  logNote : String
  stderrLine : Option String
  alertAttempted : Bool
  alertSent : Bool

/-- `main` (source lines 163-205), parameterised by the configured
`THRESHOLD`.  Branch for branch: fetch/extract failures are caught by
the outer `try` and logged as ERROR; `None` price logs NO_MATCH;
otherwise status is BELOW iff `price < THRESHOLD`; a BELOW price with a
clear latch attempts the alert, latching only on success; an ABOVE price
clears the latch, noting the reset when the latch was set. -/
def main (threshold : ℚ) (env : RunEnv) : RunResult :=
  let state := load_state env.stateFile
  let lastBelow := pyBool (dictGet state "last_below" (JVal.jbool false))
  match env.fetched with
  | .error e =>
      { exitCode := 0, savedState := state, logPrice := none,
        logStatus := "ERROR", logNote := e,
        stderrLine := some ("ERROR: " ++ e),
        alertAttempted := false, alertSent := false }
  | .ok doc =>
      match extract_plate_price doc with
      | .error e =>
          { exitCode := 0, savedState := state, logPrice := none,
            logStatus := "ERROR", logNote := e,
            stderrLine := some ("ERROR: " ++ e),
            alertAttempted := false, alertSent := false }
      | .ok none =>
          { exitCode := 0, savedState := state, logPrice := none,
            logStatus := "NO_MATCH", logNote := "Nie znaleziono wiersza Płyta/ceny",
            stderrLine := none, alertAttempted := false, alertSent := false }
      | .ok (some price) =>
          if price < threshold then
            if lastBelow then
              { exitCode := 0, savedState := state, logPrice := some price,
                logStatus := "BELOW", logNote := "", stderrLine := none,
                alertAttempted := false, alertSent := false }
            else
              match env.sendResult with
              | .ok _ =>
                  { exitCode := 0,
                    savedState := setKey state "last_below" (JVal.jbool true),
                    logPrice := some price, logStatus := "BELOW",
                    logNote := "Alert sent", stderrLine := none,
                    alertAttempted := true, alertSent := true }
              | .error e =>
                  { exitCode := 0,
                    savedState := setKey state "last_below" (JVal.jbool false),
                    logPrice := some price, logStatus := "BELOW",
                    logNote := "Email error: " ++ e, stderrLine := none,
                    alertAttempted := true, alertSent := false }
          else
            { exitCode := 0,
              savedState := setKey state "last_below" (JVal.jbool false),
              logPrice := some price, logStatus := "ABOVE",
              logNote :=
                if lastBelow then "Latch reset (price went above threshold)" else "",
              stderrLine := none, alertAttempted := false, alertSent := false }

/-- The latch value a run starts from:
`bool(state.get("last_below", False))` of source line 166. -/
def loadedLastBelow (env : RunEnv) : Bool :=
  pyBool (dictGet (load_state env.stateFile) "last_below" (JVal.jbool false))

/-- The latch value a run persists, as the next run will read it. -/
def savedLastBelow (r : RunResult) : Bool :=
  pyBool (dictGet r.savedState "last_below" (JVal.jbool false))

/-! ## Concrete test pages, state dicts and run environments -/

/-- Shorthand element constructor. -/
def el (tag : String) (attrs : List (String × String)) (children : List Node) : Node :=
  .elem tag attrs (nodesOf children)

/-- A ticket row `<tr data-area=.. class=..><td class="price"><b>text</b></td></tr>`. -/
def priceRow (area cls priceText : String) : Node :=
  el "tr" [("data-area", area), ("class", cls)]
    [el "td" [("class", "price")] [el "b" [] [.text priceText]]]

/-- Page whose plate row shows `199,00 zł` (below the default threshold
230). -/
def docBelow : Node :=
  el "html" [] [el "table" [] [priceRow "plyta" "category foo" "199,00 zł"]]

/-- Page whose plate row shows `244,95 zł` (above the threshold). -/
def docAbove : Node :=
  el "html" [] [el "table" [] [priceRow "plyta" "category foo" "244,95 zł"]]

/-- Page whose plate row shows exactly the default threshold, `230,00 zł`. -/
def docEdge : Node :=
  el "html" [] [el "table" [] [priceRow "plyta" "category foo" "230,00 zł"]]

/-- Page with a row that matches only on uppercase attribute values. -/
def docCased : Node :=
  el "html" [] [el "table" [] [priceRow "PLYTA" "aCATEGORYz" "150,00 zł"]]

/-- Page with two matching rows; document order must pick the first. -/
def docTwoRows : Node :=
  el "html" []
    [el "table" []
      [priceRow "plyta" "category a" "100,00 zł",
       priceRow "plyta" "category b" "200,00 zł"]]

/-- Page without any matching row. -/
def docNoMatch : Node :=
  el "html" [] [el "table" [] [priceRow "balkon" "category foo" "90,00 zł"]]

/-- Page whose matching row has an empty bold element. -/
def docEmptyBold : Node :=
  el "html" []
    [el "table" []
      [el "tr" [("data-area", "plyta"), ("class", "category")]
        [el "td" [("class", "price")] [el "b" [] []]]]]

/-- Page whose matching row carries unparseable price text. -/
def docBadPrice : Node :=
  el "html" [] [el "table" [] [priceRow "plyta" "category foo" "brak ceny"]]

/-- State dict with a clear latch. -/
def stFalse : List (String × JVal) := [("last_below", JVal.jbool false)]

/-- State dict with a set latch. -/
def stTrue : List (String × JVal) := [("last_below", JVal.jbool true)]

/-- Run: clear latch, page below threshold, mail succeeds. -/
def envBelowOk : RunEnv := ⟨.valid stFalse, .ok docBelow, .ok ()⟩

/-- Run: clear latch, page below threshold, mail fails. -/
def envBelowMailFail : RunEnv := ⟨.valid stFalse, .ok docBelow, .error "SMTPAuthenticationError"⟩

/-- Run: set latch, page above threshold. -/
def envAboveLatched : RunEnv := ⟨.valid stTrue, .ok docAbove, .ok ()⟩

/-- Run: clear latch, page above threshold. -/
def envAboveClear : RunEnv := ⟨.valid stFalse, .ok docAbove, .ok ()⟩

/-- Run: set latch, page at exactly the threshold. -/
def envEdge : RunEnv := ⟨.valid stTrue, .ok docEdge, .ok ()⟩

/-- Run: page without a matching row. -/
def envNoMatch : RunEnv := ⟨.valid stTrue, .ok docNoMatch, .ok ()⟩

/-- Run: fetch raised after exhausting retries. -/
def envFetchFail : RunEnv := ⟨.valid stTrue, .error "Fetch failed after retries: Bad HTTP 403 or tiny body", .ok ()⟩

/-- Run: page whose matched price text does not parse. -/
def envBadPrice : RunEnv := ⟨.valid stTrue, .ok docBadPrice, .ok ()⟩

/-! ## Helper lemmas: the cleaning pipeline -/

/-- Removing one dot first does not change the result of removing all
dots afterwards. -/
theorem filter_removeFirstDot (l : List Char) :
    (removeFirstDot l).filter (fun c => c != '.') = l.filter (fun c => c != '.') := by
  induction l with
  | nil => rfl
  | cons c rest ih =>
      by_cases h : c = '.'
      · subst h
        simp [removeFirstDot]
      · simp [removeFirstDot, List.filter_cons, h, ih]

/-- `removeFirstDot` only ever removes characters. -/
theorem mem_of_mem_removeFirstDot :
    ∀ {l : List Char} {c : Char}, c ∈ removeFirstDot l → c ∈ l := by
  intro l
  induction l with
  | nil => intro c h; simp [removeFirstDot] at h
  | cons d rest ih =>
      intro c h
      rw [removeFirstDot] at h
      by_cases hd : d = '.'
      · rw [if_pos (by simp [hd])] at h
        exact List.mem_cons_of_mem _ h
      · rw [if_neg (by simp [hd])] at h
        rcases List.mem_cons.mp h with h | h
        · exact h ▸ List.mem_cons_self _ _
        · exact List.mem_cons_of_mem _ (ih h)

/-- The source's five-step cleaning equals the spec's three-step
description. -/
theorem cleanChars_eq_specCleanChars (cs : List Char) :
    cleanChars cs = specCleanChars cs := by
  simp only [cleanChars, specCleanChars]
  have h4 :
      ((removeFirstDot ((cs.map fun c => if c == nbsp then ' ' else c).filter
          fun c => c != ' ')).filter (fun c => c != ' ')) =
        removeFirstDot ((cs.map fun c => if c == nbsp then ' ' else c).filter
          fun c => c != ' ') := by
    apply List.filter_eq_self.mpr
    intro a ha
    exact (List.mem_filter.mp (mem_of_mem_removeFirstDot ha)).2
  rw [h4, filter_removeFirstDot, List.filter_filter]
  have hcomm :
      (fun c : Char => (c != '.') && (c != ' ')) =
        fun c : Char => (c != ' ') && (c != '.') := by
    funext a
    exact Bool.and_comm _ _
  rw [hcomm]

/-! ## Helper lemmas: concrete parses and extractions -/

/-- Evaluate `parse_price_pln` from a `pyFloatParts` evaluation. -/
theorem parse_eval (s : String) (parts : Bool × Nat × Nat) (q : ℚ)
    (h : pyFloatParts (cleanChars s.data) = some parts)
    (hq : ratOfParts parts = q) :
    parse_price_pln s = .ok q := by
  simp only [parse_price_pln, h, hq]

/-- Evaluate `parse_price_pln` on unparseable input. -/
theorem parse_eval_err (s : String)
    (h : pyFloatParts (cleanChars s.data) = none) :
    parse_price_pln s =
      .error ("could not convert string to float: " ++ String.mk (cleanChars s.data)) := by
  simp only [parse_price_pln, h]

/-- Evaluate `extract_plate_price` from its two stages. -/
theorem extract_eval (doc : Node) (np : String) (q : ℚ)
    (h1 : plateNumPart doc = some np)
    (h2 : parse_price_pln np = .ok q) :
    extract_plate_price doc = .ok (some q) := by
  simp only [extract_plate_price, h1, h2]

/-- Evaluate `extract_plate_price` when no price text is located. -/
theorem extract_eval_none (doc : Node) (h : plateNumPart doc = none) :
    extract_plate_price doc = .ok none := by
  simp only [extract_plate_price, h]

/-- Evaluate `extract_plate_price` when the located price text fails to
parse. -/
theorem extract_eval_err (doc : Node) (np e : String)
    (h1 : plateNumPart doc = some np)
    (h2 : parse_price_pln np = .error e) :
    extract_plate_price doc = .error e := by
  simp only [extract_plate_price, h1, h2]

theorem parse_244_95 : parse_price_pln "244,95" = .ok (244.95 : ℚ) :=
  parse_eval "244,95" (false, 24495, 2) 244.95 (by decide) (by norm_num [ratOfParts])

theorem parse_199_00 : parse_price_pln "199,00" = .ok (199.00 : ℚ) :=
  parse_eval "199,00" (false, 19900, 2) 199.00 (by decide) (by norm_num [ratOfParts])

theorem parse_230_00 : parse_price_pln "230,00" = .ok (230 : ℚ) :=
  parse_eval "230,00" (false, 23000, 2) 230 (by decide) (by norm_num [ratOfParts])

theorem extract_docBelow : extract_plate_price docBelow = .ok (some (199.00 : ℚ)) :=
  extract_eval docBelow "199,00" 199.00 (by decide) parse_199_00

theorem extract_docAbove : extract_plate_price docAbove = .ok (some (244.95 : ℚ)) :=
  extract_eval docAbove "244,95" 244.95 (by decide) parse_244_95

theorem extract_docEdge : extract_plate_price docEdge = .ok (some (230 : ℚ)) :=
  extract_eval docEdge "230,00" 230 (by decide) parse_230_00

theorem extract_docNoMatch : extract_plate_price docNoMatch = .ok none :=
  extract_eval_none docNoMatch (by decide)

theorem extract_docBadPrice :
    extract_plate_price docBadPrice = .error "could not convert string to float: brakceny" := by
  rw [extract_eval_err docBadPrice "brak ceny" _ (by decide)
    (parse_eval_err "brak ceny" (by decide))]
  congr 1

/-! ## Helper lemmas: state dicts -/

/-- Reading back the key just written. -/
theorem dictGet_setKey (m : List (String × JVal)) (key : String) (v dflt : JVal) :
    dictGet (setKey m key v) key dflt = v := by
  induction m with
  | nil => simp [setKey, dictGet]
  | cons p rest ih =>
      obtain ⟨k, w⟩ := p
      by_cases h : k = key
      · simp [setKey, dictGet, h]
      · simp [setKey, dictGet, h, ih]

/-! ## Helper lemmas: the branches of `main`

One lemma per reachable branch of the orchestrator, each giving the full
`RunResult` record; all claim theorems about `main` are assembled from
these. -/

theorem main_fetch_error (threshold : ℚ) (env : RunEnv) (e : String)
    (hf : env.fetched = .error e) :
    main threshold env =
      { exitCode := 0, savedState := load_state env.stateFile, logPrice := none,
        logStatus := "ERROR", logNote := e, stderrLine := some ("ERROR: " ++ e),
        alertAttempted := false, alertSent := false } := by
  rw [main, hf]

theorem main_extract_error (threshold : ℚ) (env : RunEnv) (doc : Node) (e : String)
    (hf : env.fetched = .ok doc) (hx : extract_plate_price doc = .error e) :
    main threshold env =
      { exitCode := 0, savedState := load_state env.stateFile, logPrice := none,
        logStatus := "ERROR", logNote := e, stderrLine := some ("ERROR: " ++ e),
        alertAttempted := false, alertSent := false } := by
  rw [main, hf]
  simp only [hx]

theorem main_no_match (threshold : ℚ) (env : RunEnv) (doc : Node)
    (hf : env.fetched = .ok doc) (hx : extract_plate_price doc = .ok none) :
    main threshold env =
      { exitCode := 0, savedState := load_state env.stateFile, logPrice := none,
        logStatus := "NO_MATCH", logNote := "Nie znaleziono wiersza Płyta/ceny",
        stderrLine := none, alertAttempted := false, alertSent := false } := by
  rw [main, hf]
  simp only [hx]

theorem main_below_latched (threshold : ℚ) (env : RunEnv) (doc : Node) (p : ℚ)
    (hf : env.fetched = .ok doc) (hx : extract_plate_price doc = .ok (some p))
    (hlt : p < threshold) (hlb : loadedLastBelow env = true) :
    main threshold env =
      { exitCode := 0, savedState := load_state env.stateFile, logPrice := some p,
        logStatus := "BELOW", logNote := "", stderrLine := none,
        alertAttempted := false, alertSent := false } := by
  have hlb' : pyBool (dictGet (load_state env.stateFile) "last_below" (JVal.jbool false)) = true := hlb
  rw [main, hf]
  simp only [hx, hlb', if_pos hlt, if_true]

theorem main_below_alert_ok (threshold : ℚ) (env : RunEnv) (doc : Node) (p : ℚ)
    (hf : env.fetched = .ok doc) (hx : extract_plate_price doc = .ok (some p))
    (hlt : p < threshold) (hlb : loadedLastBelow env = false)
    (hs : env.sendResult = .ok ()) :
    main threshold env =
      { exitCode := 0,
        savedState := setKey (load_state env.stateFile) "last_below" (JVal.jbool true),
        logPrice := some p, logStatus := "BELOW", logNote := "Alert sent",
        stderrLine := none, alertAttempted := true, alertSent := true } := by
  have hlb' : pyBool (dictGet (load_state env.stateFile) "last_below" (JVal.jbool false)) = false := hlb
  rw [main, hf]
  simp only [hx, hlb', if_pos hlt, hs, Bool.false_eq_true, if_false]

theorem main_below_alert_fail (threshold : ℚ) (env : RunEnv) (doc : Node) (p : ℚ)
    (e : String)
    (hf : env.fetched = .ok doc) (hx : extract_plate_price doc = .ok (some p))
    (hlt : p < threshold) (hlb : loadedLastBelow env = false)
    (hs : env.sendResult = .error e) :
    main threshold env =
      { exitCode := 0,
        savedState := setKey (load_state env.stateFile) "last_below" (JVal.jbool false),
        logPrice := some p, logStatus := "BELOW", logNote := "Email error: " ++ e,
        stderrLine := none, alertAttempted := true, alertSent := false } := by
  have hlb' : pyBool (dictGet (load_state env.stateFile) "last_below" (JVal.jbool false)) = false := hlb
  rw [main, hf]
  simp only [hx, hlb', if_pos hlt, hs, Bool.false_eq_true, if_false]

theorem main_above (threshold : ℚ) (env : RunEnv) (doc : Node) (p : ℚ)
    (hf : env.fetched = .ok doc) (hx : extract_plate_price doc = .ok (some p))
    (hge : ¬ p < threshold) :
    main threshold env =
      { exitCode := 0,
        savedState := setKey (load_state env.stateFile) "last_below" (JVal.jbool false),
        logPrice := some p, logStatus := "ABOVE",
        logNote :=
          if loadedLastBelow env then "Latch reset (price went above threshold)" else "",
        stderrLine := none, alertAttempted := false, alertSent := false } := by
  rw [main, hf]
  simp only [hx, if_neg hge]
  rfl

/-! ## Helper lemmas: the fetch retry loop -/

/-- A non-successful `Except` carries an error. -/
theorem exIsOk_eq_false {ε α : Type} {r : Except ε α} (h : exIsOk r = false) :
    ∃ e, r = .error e := by
  cases r with
  | ok a => simp [exIsOk] at h
  | error e => exact ⟨e, rfl⟩

/-- Shifting the head off a back-off sleep schedule. -/
theorem range_map_shift (b a n : Nat) :
    b * (a + 1) :: (List.range n).map (fun i => b * (a + 1 + i + 1)) =
      (List.range (n + 1)).map (fun i => b * (a + i + 1)) := by
  have hfun : (fun i => b * (a + 1 + i + 1)) =
      ((fun i : Nat => b * (a + i + 1)) ∘ Nat.succ) := by
    funext i
    simp only [Function.comp_apply]
    congr 1
    omega
  rw [List.range_succ_eq_map, List.map_cons, List.map_map, hfun]

/-- If every outcome before `o` fails and `o` succeeds while retries
remain, the loop returns `o`'s body, having slept once after each failed
attempt. -/
theorem fetchAux_first_ok (maxRetries backoffMs : Nat) :
    ∀ (pre : List AttemptOutcome) (o : AttemptOutcome) (post : List AttemptOutcome)
      (b : String) (attempt : Nat) (lastErr : Option String),
      (∀ x ∈ pre, exIsOk (attemptResult x) = false) →
      attemptResult o = .ok b →
      attempt + pre.length ≤ maxRetries →
      fetchAux maxRetries backoffMs (pre ++ o :: post) attempt lastErr =
        (.ok b, (List.range pre.length).map (fun i => backoffMs * (attempt + i + 1))) := by
  intro pre
  induction pre with
  | nil =>
      intro o post b attempt lastErr _ ho _
      simp [fetchAux, ho]
  | cons x pre' ih =>
      intro o post b attempt lastErr hfail ho hle
      obtain ⟨e, he⟩ := exIsOk_eq_false (hfail x (List.mem_cons_self x pre'))
      have hlt : attempt < maxRetries := by
        simp only [List.length_cons] at hle
        omega
      have hrec := ih o post b (attempt + 1) (some e)
        (fun y hy => hfail y (List.mem_cons_of_mem _ hy)) ho
        (by simp only [List.length_cons] at hle; omega)
      rw [List.cons_append, fetchAux]
      simp only [he, if_pos hlt, hrec, List.length_cons]
      rw [Prod.mk.injEq]
      exact ⟨rfl, range_map_shift backoffMs attempt pre'.length⟩

/-- If every attempt fails, the loop raises with the final attempt's
error, having slept once after every attempt but the last. -/
theorem fetchAux_all_fail (maxRetries backoffMs : Nat) :
    ∀ (front : List AttemptOutcome) (lastO : AttemptOutcome) (attempt : Nat)
      (lastErr : Option String),
      (∀ x ∈ front ++ [lastO], exIsOk (attemptResult x) = false) →
      attempt + front.length = maxRetries →
      fetchAux maxRetries backoffMs (front ++ [lastO]) attempt lastErr =
        (.error ("Fetch failed after retries: " ++ exErrMsg (attemptResult lastO)),
         (List.range front.length).map (fun i => backoffMs * (attempt + i + 1))) := by
  intro front
  induction front with
  | nil =>
      intro lastO attempt lastErr hfail hlen
      obtain ⟨e, he⟩ := exIsOk_eq_false (hfail lastO (by simp))
      have hnlt : ¬ attempt < maxRetries := by
        simp only [List.length_nil, Nat.add_zero] at hlen
        omega
      rw [List.nil_append, fetchAux]
      simp only [he, if_neg hnlt]
      simp [he, exErrMsg]
  | cons x front' ih =>
      intro lastO attempt lastErr hfail hlen
      obtain ⟨e, he⟩ := exIsOk_eq_false (hfail x (List.mem_cons_self _ _))
      have hlt : attempt < maxRetries := by
        simp only [List.length_cons] at hlen
        omega
      have hrec := ih lastO (attempt + 1) (some e)
        (fun y hy => hfail y (List.mem_cons_of_mem _ hy))
        (by simp only [List.length_cons] at hlen; omega)
      rw [List.cons_append, fetchAux]
      simp only [he, if_pos hlt, hrec, List.length_cons]
      rw [Prod.mk.injEq]
      exact ⟨rfl, range_map_shift backoffMs attempt front'.length⟩

/-- When the loop visits exactly the remaining attempt budget, it
succeeds iff some attempt in the list succeeds. -/
theorem fetchAux_isOk_iff (maxRetries backoffMs : Nat) :
    ∀ (outs : List AttemptOutcome) (attempt : Nat) (lastErr : Option String),
      attempt + outs.length = maxRetries + 1 →
      (exIsOk (fetchAux maxRetries backoffMs outs attempt lastErr).1 = true ↔
        ∃ o ∈ outs, exIsOk (attemptResult o) = true) := by
  intro outs
  induction outs with
  | nil =>
      intro attempt lastErr _
      simp [fetchAux, exIsOk]
  | cons o rest ih =>
      intro attempt lastErr hlen
      cases ho : attemptResult o with
      | ok b =>
          have hres : fetchAux maxRetries backoffMs (o :: rest) attempt lastErr =
              (Except.ok b, []) := by
            rw [fetchAux]
            simp only [ho]
          rw [hres]
          constructor
          · intro _
            exact ⟨o, List.mem_cons_self _ _, by simp [ho, exIsOk]⟩
          · intro _
            rfl
      | error e =>
          by_cases hlt : attempt < maxRetries
          · have hrec := ih (attempt + 1) (some e)
              (by simp only [List.length_cons] at hlen; omega)
            have hstep : fetchAux maxRetries backoffMs (o :: rest) attempt lastErr =
                ((fetchAux maxRetries backoffMs rest (attempt + 1) (some e)).1,
                  backoffMs * (attempt + 1) ::
                    (fetchAux maxRetries backoffMs rest (attempt + 1) (some e)).2) := by
              rw [fetchAux]
              simp only [ho, if_pos hlt]
            rw [hstep]
            constructor
            · intro h
              obtain ⟨y, hy, hok⟩ := hrec.mp h
              exact ⟨y, List.mem_cons_of_mem _ hy, hok⟩
            · rintro ⟨y, hy, hok⟩
              rcases List.mem_cons.mp hy with rfl | hy'
              · rw [ho] at hok
                simp [exIsOk] at hok
              · exact hrec.mpr ⟨y, hy', hok⟩
          · have hrest : rest = [] := by
              have hr0 : rest.length = 0 := by
                simp only [List.length_cons] at hlen
                omega
              exact List.eq_nil_of_length_eq_zero hr0
            subst hrest
            have hstep : fetchAux maxRetries backoffMs [o] attempt lastErr =
                (.error ("Fetch failed after retries: " ++ e), []) := by
              rw [fetchAux]
              simp only [ho, if_neg hlt]
            rw [hstep]
            constructor
            · intro h
              simp [exIsOk] at h
            · rintro ⟨y, hy, hok⟩
              rcases List.mem_cons.mp hy with rfl | hy'
              · rw [ho] at hok
                simp [exIsOk] at hok
              · simp at hy'

/-! ## Further concrete evaluations and a status helper -/

theorem parse_100_00 : parse_price_pln "100,00" = .ok (100 : ℚ) :=
  parse_eval "100,00" (false, 10000, 2) 100 (by decide) (by norm_num [ratOfParts])

theorem parse_150_00 : parse_price_pln "150,00" = .ok (150 : ℚ) :=
  parse_eval "150,00" (false, 15000, 2) 150 (by decide) (by norm_num [ratOfParts])

theorem parse_1234_56_spaced : parse_price_pln "1 234,56" = .ok (1234.56 : ℚ) :=
  parse_eval "1 234,56" (false, 123456, 2) 1234.56 (by decide) (by norm_num [ratOfParts])

theorem parse_1234_56_dotted : parse_price_pln "1.234,56" = .ok (1234.56 : ℚ) :=
  parse_eval "1.234,56" (false, 123456, 2) 1234.56 (by decide) (by norm_num [ratOfParts])

theorem extract_docTwoRows : extract_plate_price docTwoRows = .ok (some (100.00 : ℚ)) :=
  extract_eval docTwoRows "100,00" 100.00 (by decide) (by rw [parse_100_00]; norm_num)

theorem extract_docCased : extract_plate_price docCased = .ok (some (150.00 : ℚ)) :=
  extract_eval docCased "150,00" 150.00 (by decide) (by rw [parse_150_00]; norm_num)

theorem extract_docEmptyBold : extract_plate_price docEmptyBold = .ok none :=
  extract_eval_none docEmptyBold (by decide)

/-- The status logged by a run that extracted a price: BELOW iff the
price is strictly below the threshold. -/
theorem main_status_of_price (threshold : ℚ) (env : RunEnv) (d : Node) (p : ℚ)
    (hf : env.fetched = .ok d) (hx : extract_plate_price d = .ok (some p)) :
    (main threshold env).logStatus = if p < threshold then "BELOW" else "ABOVE" := by
  by_cases hlt : p < threshold
  · rw [if_pos hlt]
    cases hlb : loadedLastBelow env with
    | true => rw [main_below_latched threshold env d p hf hx hlt hlb]
    | false =>
        cases hs : env.sendResult with
        | ok u =>
            cases u
            rw [main_below_alert_ok threshold env d p hf hx hlt hlb hs]
        | error me =>
            rw [main_below_alert_fail threshold env d p me hf hx hlt hlb hs]
  · rw [if_neg hlt, main_above threshold env d p hf hx hlt]

/-- A run that sees a below-threshold price with a clear latch calls
`send_email_alert`, whatever the send outcome. -/
theorem main_below_notlatched_attempts (threshold : ℚ) (env : RunEnv) (d : Node)
    (p : ℚ) (hf : env.fetched = .ok d) (hx : extract_plate_price d = .ok (some p))
    (hlt : p < threshold) (hlb : loadedLastBelow env = false) :
    (main threshold env).alertAttempted = true := by
  cases hs : env.sendResult with
  | ok u =>
      cases u
      rw [main_below_alert_ok threshold env d p hf hx hlt hlb hs]
  | error e2 =>
      rw [main_below_alert_fail threshold env d p e2 hf hx hlt hlb hs]

/-! ## Claims -/

/-- C1: Latch idempotence — starting from `last_below = false`, two
consecutive runs that both extract a price strictly below the threshold
and whose alert sending succeeds, send exactly one alert in total: the
first run sends it (`alertSent = true`) and persists `last_below =
true`; the second run, reading the state the first persisted, attempts
no alert and leaves `last_below = true` (indeed the whole state dict)
unchanged. -/
theorem latch_idempotence
    (threshold : ℚ) (env1 env2 : RunEnv) (d1 d2 : Node) (p1 p2 : ℚ)
    (h1f : env1.fetched = .ok d1) (h1x : extract_plate_price d1 = .ok (some p1))
    (h1lt : p1 < threshold) (h1send : env1.sendResult = .ok ())
    (h1lb : loadedLastBelow env1 = false)
    (h2f : env2.fetched = .ok d2) (h2x : extract_plate_price d2 = .ok (some p2))
    (h2lt : p2 < threshold) :
    (main threshold env1).alertSent = true ∧
    savedLastBelow (main threshold env1) = true ∧
    (main threshold
      { env2 with stateFile := .valid (main threshold env1).savedState }).alertAttempted = false ∧
    (main threshold
      { env2 with stateFile := .valid (main threshold env1).savedState }).alertSent = false ∧
    savedLastBelow (main threshold
      { env2 with stateFile := .valid (main threshold env1).savedState }) = true ∧
    (main threshold
      { env2 with stateFile := .valid (main threshold env1).savedState }).savedState =
      (main threshold env1).savedState := by
  have h1 := main_below_alert_ok threshold env1 d1 p1 h1f h1x h1lt h1lb h1send
  have hsaved1 : savedLastBelow (main threshold env1) = true := by
    rw [h1]
    simp [savedLastBelow, dictGet_setKey, pyBool]
  have hlb2 : loadedLastBelow
      { env2 with stateFile := StateFile.valid (main threshold env1).savedState } = true := by
    simp only [loadedLastBelow, load_state]
    rw [h1]
    simp [dictGet_setKey, pyBool]
  have h2 := main_below_latched threshold
    { env2 with stateFile := StateFile.valid (main threshold env1).savedState }
    d2 p2 h2f h2x h2lt hlb2
  refine ⟨by rw [h1], hsaved1, by rw [h2], by rw [h2], ?_, by rw [h2]; rfl⟩
  rw [h2]
  simp only [savedLastBelow, load_state]
  rw [h1]
  simp [dictGet_setKey, pyBool]

theorem latch_idempotence_witness :
    (main 230 envBelowOk).alertSent = true ∧
    (main 230
      { envBelowOk with stateFile := .valid (main 230 envBelowOk).savedState }).alertSent = false ∧
    savedLastBelow (main 230
      { envBelowOk with stateFile := .valid (main 230 envBelowOk).savedState }) = true := by
  have h := latch_idempotence 230 envBelowOk envBelowOk docBelow docBelow 199.00 199.00
    rfl extract_docBelow (by norm_num) rfl (by decide)
    rfl extract_docBelow (by norm_num)
  exact ⟨h.1, h.2.2.2.1, h.2.2.2.2.1⟩

/-- C2: Mail-failure non-latching — a run with a clear latch, a price
below the threshold and a failing alert send logs a BELOW observation
whose note records the email error, persists `last_below = false`, and a
subsequent below-threshold run reading that state attempts the alert
again. -/
theorem mail_failure_non_latching
    (threshold : ℚ) (env1 env2 : RunEnv) (d1 d2 : Node) (p1 p2 : ℚ) (e : String)
    (h1f : env1.fetched = .ok d1) (h1x : extract_plate_price d1 = .ok (some p1))
    (h1lt : p1 < threshold) (h1send : env1.sendResult = .error e)
    (h1lb : loadedLastBelow env1 = false)
    (h2f : env2.fetched = .ok d2) (h2x : extract_plate_price d2 = .ok (some p2))
    (h2lt : p2 < threshold) :
    (main threshold env1).logStatus = "BELOW" ∧
    (main threshold env1).logNote = "Email error: " ++ e ∧
    (main threshold env1).alertSent = false ∧
    savedLastBelow (main threshold env1) = false ∧
    (main threshold
      { env2 with stateFile := .valid (main threshold env1).savedState }).alertAttempted = true := by
  have h1 := main_below_alert_fail threshold env1 d1 p1 e h1f h1x h1lt h1lb h1send
  have hsaved1 : savedLastBelow (main threshold env1) = false := by
    rw [h1]
    simp [savedLastBelow, dictGet_setKey, pyBool]
  have hlb2 : loadedLastBelow
      { env2 with stateFile := StateFile.valid (main threshold env1).savedState } = false := by
    simp only [loadedLastBelow, load_state]
    rw [h1]
    simp [dictGet_setKey, pyBool]
  have h2 := main_below_notlatched_attempts threshold
    { env2 with stateFile := StateFile.valid (main threshold env1).savedState }
    d2 p2 h2f h2x h2lt hlb2
  exact ⟨by rw [h1], by rw [h1], by rw [h1], hsaved1, h2⟩

theorem mail_failure_non_latching_witness :
    (main 230 envBelowMailFail).logNote = "Email error: SMTPAuthenticationError" ∧
    savedLastBelow (main 230 envBelowMailFail) = false ∧
    (main 230
      { envBelowMailFail with
        stateFile := .valid (main 230 envBelowMailFail).savedState }).alertAttempted = true := by
  have h := mail_failure_non_latching 230 envBelowMailFail envBelowMailFail docBelow docBelow
    199.00 199.00 "SMTPAuthenticationError"
    rfl extract_docBelow (by norm_num) rfl (by decide)
    rfl extract_docBelow (by norm_num)
  exact ⟨h.2.1, h.2.2.2.1, h.2.2.2.2⟩

/-- C3 counterexample: with the latch set and a price above the
threshold the code resets the latch but logs the note
`"Latch reset (price went above threshold)"`, which is not the exact
string `"Latch reset"` the claim states. -/
theorem latch_reset_note_counterexample :
    loadedLastBelow envAboveLatched = true ∧
    (main 230 envAboveLatched).logStatus = "ABOVE" ∧
    (main 230 envAboveLatched).logNote ≠ "Latch reset" := by
  have h := main_above 230 envAboveLatched docAbove 244.95 rfl extract_docAbove (by norm_num)
  refine ⟨by decide, by rw [h], ?_⟩
  rw [h]
  simp only [show loadedLastBelow envAboveLatched = true from by decide, if_true]
  decide

/-- C3 (amended): a run with status ABOVE always persists
`last_below = false`; when the latch was set its logged note is
`"Latch reset (price went above threshold)"` (a note beginning with
"Latch reset", not that exact string), and when the latch was clear the
note is empty. -/
theorem latch_reset_behavior
    (threshold : ℚ) (env : RunEnv) (d : Node) (p : ℚ)
    (hf : env.fetched = .ok d) (hx : extract_plate_price d = .ok (some p))
    (hge : ¬ p < threshold) :
    (main threshold env).logStatus = "ABOVE" ∧
    savedLastBelow (main threshold env) = false ∧
    (loadedLastBelow env = true →
      (main threshold env).logNote = "Latch reset (price went above threshold)") ∧
    (loadedLastBelow env = false → (main threshold env).logNote = "") := by
  have h := main_above threshold env d p hf hx hge
  refine ⟨by rw [h], ?_, ?_, ?_⟩
  · rw [h]
    simp [savedLastBelow, dictGet_setKey, pyBool]
  · intro hlb
    rw [h]
    simp [hlb]
  · intro hlb
    rw [h]
    simp [hlb]

theorem latch_reset_behavior_witness :
    (main 230 envAboveLatched).logStatus = "ABOVE" ∧
    savedLastBelow (main 230 envAboveLatched) = false ∧
    (main 230 envAboveLatched).logNote = "Latch reset (price went above threshold)" := by
  have h := latch_reset_behavior 230 envAboveLatched docAbove 244.95
    rfl extract_docAbove (by norm_num)
  exact ⟨h.1, h.2.1, h.2.2.1 (by decide)⟩

/-- C4: Fetcher retry semantics — with one oracle outcome per loop
iteration (`maxRetries + 1` attempts in total): the fetch succeeds iff
some attempt yields a 2xx status with a body longer than 1000
characters; it returns the first such body, sleeping
`backoffMs * (i + 1)` ms after each failed attempt `i` before it; and
when every attempt fails it raises `Fetch failed after retries`
carrying the last attempt's error, having slept after every attempt but
the last. -/
theorem fetch_retry_semantics
    (outs : List AttemptOutcome) (maxRetries backoffMs : Nat)
    (hlen : outs.length = maxRetries + 1) :
    (exIsOk (fetch_html_with_warm outs maxRetries backoffMs).1 = true ↔
      ∃ o ∈ outs, exIsOk (attemptResult o) = true) ∧
    (∀ pre o post b, outs = pre ++ o :: post →
      (∀ x ∈ pre, exIsOk (attemptResult x) = false) →
      attemptResult o = .ok b →
      fetch_html_with_warm outs maxRetries backoffMs =
        (.ok b, (List.range pre.length).map (fun i => backoffMs * (i + 1)))) ∧
    (∀ front lastO, outs = front ++ [lastO] →
      (∀ x ∈ outs, exIsOk (attemptResult x) = false) →
      fetch_html_with_warm outs maxRetries backoffMs =
        (.error ("Fetch failed after retries: " ++ exErrMsg (attemptResult lastO)),
         (List.range maxRetries).map (fun i => backoffMs * (i + 1)))) := by
  have hfun : (fun i : Nat => backoffMs * (0 + i + 1)) =
      (fun i : Nat => backoffMs * (i + 1)) := by
    funext i
    congr 1
    omega
  refine ⟨fetchAux_isOk_iff maxRetries backoffMs outs 0 none (by omega), ?_, ?_⟩
  · intro pre o post b houts hpre ho
    subst houts
    have hle : 0 + pre.length ≤ maxRetries := by
      simp only [List.length_append, List.length_cons] at hlen
      omega
    have h := fetchAux_first_ok maxRetries backoffMs pre o post b 0 none hpre ho hle
    rw [hfun] at h
    rw [fetch_html_with_warm]
    exact h
  · intro front lastO houts hall
    subst houts
    have hflen : front.length = maxRetries := by
      simp only [List.length_append, List.length_cons, List.length_nil] at hlen
      omega
    have h := fetchAux_all_fail maxRetries backoffMs front lastO 0 none hall (by omega)
    rw [hfun, hflen] at h
    rw [fetch_html_with_warm]
    exact h

theorem fetch_retry_semantics_witness :
    ([AttemptOutcome.exc "boom", AttemptOutcome.resp 403 "x"].length = 1 + 1) ∧
    fetch_html_with_warm [AttemptOutcome.exc "boom", AttemptOutcome.resp 403 "x"] 1 800 =
      (.error ("Fetch failed after retries: " ++
          exErrMsg (attemptResult (AttemptOutcome.resp 403 "x"))),
        (List.range 1).map (fun i => 800 * (i + 1))) := by
  refine ⟨rfl, ?_⟩
  exact (fetch_retry_semantics [.exc "boom", .resp 403 "x"] 1 800 rfl).2.2
    [.exc "boom"] (.resp 403 "x") rfl (by decide)

/-- C5: Extractor contract — the extractor processes the first
document-order table row whose `data-area` equals "plyta"
case-insensitively and whose space-joined class list contains
"category" case-insensitively; it returns `none` when no such row
exists, when the row has no price cell, or when the cell's first bold
element is absent or has empty stripped text; a matching row holding
`<td class="price"><b>199,00 zł</b></td>` yields `199.00`; and a parse
failure inside a matched cell propagates as a hard error. -/
theorem extractor_contract :
    (∀ doc : Node, (plateRows doc).head? = none → extract_plate_price doc = .ok none) ∧
    (∀ doc row, (plateRows doc).head? = some row → (priceTds row).head? = none →
      extract_plate_price doc = .ok none) ∧
    (∀ doc row td, (plateRows doc).head? = some row → (priceTds row).head? = some td →
      (boldsIn td).head? = none → extract_plate_price doc = .ok none) ∧
    (∀ doc row td bn, (plateRows doc).head? = some row → (priceTds row).head? = some td →
      (boldsIn td).head? = some bn → getTextStrip "" bn = "" →
      extract_plate_price doc = .ok none) ∧
    extract_plate_price docBelow = .ok (some (199.00 : ℚ)) ∧
    extract_plate_price docTwoRows = .ok (some (100.00 : ℚ)) ∧
    extract_plate_price docCased = .ok (some (150.00 : ℚ)) ∧
    extract_plate_price docNoMatch = .ok none ∧
    extract_plate_price docEmptyBold = .ok none ∧
    extract_plate_price docBadPrice = .error "could not convert string to float: brakceny" := by
  refine ⟨?_, ?_, ?_, ?_, extract_docBelow, extract_docTwoRows, extract_docCased,
    extract_docNoMatch, extract_docEmptyBold, extract_docBadPrice⟩
  · intro doc h
    exact extract_eval_none doc (by rw [plateNumPart]; simp only [h])
  · intro doc row h1 h2
    exact extract_eval_none doc (by rw [plateNumPart]; simp only [h1, h2])
  · intro doc row td h1 h2 h3
    exact extract_eval_none doc (by rw [plateNumPart]; simp only [h1, h2, h3])
  · intro doc row td bn h1 h2 h3 h4
    exact extract_eval_none doc (by rw [plateNumPart]; simp [h1, h2, h3, h4])

theorem extractor_contract_witness :
    extract_plate_price docNoMatch = .ok none ∧
    extract_plate_price docEmptyBold = .ok none := by
  constructor
  · exact extractor_contract.1 docNoMatch rfl
  · exact extractor_contract.2.2.2.1 docEmptyBold
      (el "tr" [("data-area", "plyta"), ("class", "category")]
        [el "td" [("class", "price")] [el "b" [] []]])
      (el "td" [("class", "price")] [el "b" [] []])
      (el "b" [] []) rfl rfl rfl rfl

/-- C6: Parser correctness — the cleaning pipeline normalises
non-breaking spaces to spaces, strips all spaces and dots and turns the
comma into a decimal point (proved equal to the spec's description for
every input); `244,95`, `1 234,56` and `1.234,56` parse to `244.95`,
`1234.56` and `1234.56`; and when the cleaned string is not a valid
number the parse fails with a propagated error. -/
theorem parser_correctness :
    (∀ cs : List Char, cleanChars cs = specCleanChars cs) ∧
    parse_price_pln "244,95" = .ok (244.95 : ℚ) ∧
    parse_price_pln "1 234,56" = .ok (1234.56 : ℚ) ∧
    parse_price_pln "1.234,56" = .ok (1234.56 : ℚ) ∧
    (∀ s : String, pyFloatParts (cleanChars s.data) = none →
      ∃ e, parse_price_pln s = .error e) := by
  refine ⟨cleanChars_eq_specCleanChars, parse_244_95, parse_1234_56_spaced,
    parse_1234_56_dotted, ?_⟩
  intro s h
  exact ⟨_, parse_eval_err s h⟩

theorem parser_correctness_witness :
    cleanChars "1 234,56".data = specCleanChars "1 234,56".data ∧
    pyFloatParts (cleanChars "brak ceny".data) = none ∧
    (∃ e, parse_price_pln "brak ceny" = .error e) :=
  ⟨parser_correctness.1 "1 234,56".data, by decide,
    parser_correctness.2.2.2.2 "brak ceny" (by decide)⟩

/-- C7: Frame on NO_MATCH and ERROR — a run whose outcome is NO_MATCH
(extractor returns `none`) or ERROR (fetch or extraction failure)
persists exactly the state dict it loaded, whatever the latch was. -/
theorem frame_on_no_match_and_error (threshold : ℚ) (env : RunEnv) :
    (∀ e, env.fetched = .error e →
      (main threshold env).savedState = load_state env.stateFile ∧
      (main threshold env).logStatus = "ERROR") ∧
    (∀ d e, env.fetched = .ok d → extract_plate_price d = .error e →
      (main threshold env).savedState = load_state env.stateFile ∧
      (main threshold env).logStatus = "ERROR") ∧
    (∀ d, env.fetched = .ok d → extract_plate_price d = .ok none →
      (main threshold env).savedState = load_state env.stateFile ∧
      (main threshold env).logStatus = "NO_MATCH") := by
  refine ⟨?_, ?_, ?_⟩
  · intro e hf
    rw [main_fetch_error threshold env e hf]
    exact ⟨rfl, rfl⟩
  · intro d e hf hx
    rw [main_extract_error threshold env d e hf hx]
    exact ⟨rfl, rfl⟩
  · intro d hf hx
    rw [main_no_match threshold env d hf hx]
    exact ⟨rfl, rfl⟩

theorem frame_on_no_match_and_error_witness :
    (main 230 envNoMatch).savedState = load_state envNoMatch.stateFile ∧
    (main 230 envNoMatch).logStatus = "NO_MATCH" :=
  (frame_on_no_match_and_error 230 envNoMatch).2.2 docNoMatch rfl extract_docNoMatch

/-- C8: State-file fallback — a missing, unreadable or malformed state
file loads as `{"last_below": false}` (`load_state` is total, so nothing
is raised), and a run on such a file behaves exactly like a run on a
valid file holding `{"last_below": false}`. -/
theorem state_file_fallback :
    load_state StateFile.missing = [("last_below", JVal.jbool false)] ∧
    load_state StateFile.unreadable = [("last_below", JVal.jbool false)] ∧
    load_state StateFile.malformed = [("last_below", JVal.jbool false)] ∧
    (∀ f : StateFile,
      f = StateFile.missing ∨ f = StateFile.unreadable ∨ f = StateFile.malformed →
      ∀ fe : Except String Node, ∀ se : Except String Unit,
        loadedLastBelow ⟨f, fe, se⟩ = false ∧
        ∀ threshold : ℚ,
          main threshold ⟨f, fe, se⟩ =
            main threshold ⟨StateFile.valid [("last_below", JVal.jbool false)], fe, se⟩) := by
  refine ⟨rfl, rfl, rfl, ?_⟩
  rintro f (rfl | rfl | rfl) fe se <;> exact ⟨rfl, fun _ => rfl⟩

theorem state_file_fallback_witness :
    loadedLastBelow ⟨StateFile.malformed, .ok docBelow, .ok ()⟩ = false ∧
    main 230 ⟨StateFile.malformed, .ok docBelow, .ok ()⟩ =
      main 230 ⟨StateFile.valid [("last_below", JVal.jbool false)], .ok docBelow, .ok ()⟩ := by
  have h := state_file_fallback.2.2.2 StateFile.malformed (Or.inr (Or.inr rfl))
    (.ok docBelow) (.ok ())
  exact ⟨h.1, h.2 230⟩

/-- C9: Always-success exit — every run returns exit code 0, including
runs where fetching or extraction raised inside the designed try/except
boundary; those errors are logged as an ERROR observation and reported
on standard error instead of propagating. -/
theorem always_exit_zero (threshold : ℚ) (env : RunEnv) :
    (main threshold env).exitCode = 0 ∧
    (∀ e, env.fetched = .error e →
      (main threshold env).logStatus = "ERROR" ∧
      (main threshold env).stderrLine = some ("ERROR: " ++ e)) ∧
    (∀ d e, env.fetched = .ok d → extract_plate_price d = .error e →
      (main threshold env).logStatus = "ERROR" ∧
      (main threshold env).stderrLine = some ("ERROR: " ++ e)) := by
  refine ⟨?_, ?_, ?_⟩
  · cases hf : env.fetched with
    | error e => rw [main_fetch_error threshold env e hf]
    | ok d =>
        cases hx : extract_plate_price d with
        | error e => rw [main_extract_error threshold env d e hf hx]
        | ok op =>
            cases op with
            | none => rw [main_no_match threshold env d hf hx]
            | some p =>
                by_cases hlt : p < threshold
                · cases hlb : loadedLastBelow env with
                  | true => rw [main_below_latched threshold env d p hf hx hlt hlb]
                  | false =>
                      cases hs : env.sendResult with
                      | ok u =>
                          cases u
                          rw [main_below_alert_ok threshold env d p hf hx hlt hlb hs]
                      | error me =>
                          rw [main_below_alert_fail threshold env d p me hf hx hlt hlb hs]
                · rw [main_above threshold env d p hf hx hlt]
  · intro e hf
    rw [main_fetch_error threshold env e hf]
    exact ⟨rfl, rfl⟩
  · intro d e hf hx
    rw [main_extract_error threshold env d e hf hx]
    exact ⟨rfl, rfl⟩

theorem always_exit_zero_witness :
    (main 230 envFetchFail).exitCode = 0 ∧
    (main 230 envFetchFail).logStatus = "ERROR" ∧
    (main 230 envFetchFail).stderrLine =
      some ("ERROR: " ++ "Fetch failed after retries: Bad HTTP 403 or tiny body") := by
  have h := always_exit_zero 230 envFetchFail
  have h2 := h.2.1 "Fetch failed after retries: Bad HTTP 403 or tiny body" rfl
  exact ⟨h.1, h2.1, h2.2⟩

/-- C10: Threshold boundary — a run that extracts a price logs status
BELOW iff the price is strictly below the configured threshold; at exact
equality the status is ABOVE, no alert is attempted or sent, and the
persisted latch is cleared. -/
theorem threshold_boundary (threshold : ℚ) (env : RunEnv) (d : Node) (p : ℚ)
    (hf : env.fetched = .ok d) (hx : extract_plate_price d = .ok (some p)) :
    ((main threshold env).logStatus = "BELOW" ↔ p < threshold) ∧
    (p = threshold →
      (main threshold env).logStatus = "ABOVE" ∧
      (main threshold env).alertAttempted = false ∧
      (main threshold env).alertSent = false ∧
      savedLastBelow (main threshold env) = false) := by
  have hstat := main_status_of_price threshold env d p hf hx
  constructor
  · constructor
    · intro hb
      by_contra hnlt
      rw [hstat, if_neg hnlt] at hb
      exact absurd hb (by decide)
    · intro hlt
      rw [hstat, if_pos hlt]
  · intro hpe
    have hge : ¬ p < threshold := by
      rw [hpe]
      exact lt_irrefl threshold
    have h := main_above threshold env d p hf hx hge
    refine ⟨by rw [h], by rw [h], by rw [h], ?_⟩
    rw [h]
    simp [savedLastBelow, dictGet_setKey, pyBool]

theorem threshold_boundary_witness :
    (main 230 envEdge).logStatus = "ABOVE" ∧
    (main 230 envEdge).alertSent = false ∧
    savedLastBelow (main 230 envEdge) = false := by
  have h := threshold_boundary 230 envEdge docEdge 230 rfl extract_docEdge
  have h2 := h.2 rfl
  exact ⟨h2.1, h2.2.2.1, h2.2.2.2⟩

end AlebiletWatch
